import Mathlib

/-!
# Verification of the PyOneDark stage-control core

Shallow embedding of the command-dispatch bus, the stage velocity loops, the
PID trajectory follower, the well lookup and the waypoint machinery of
`src/SupportClasses/ProcessCommand.py` and `src/SupportClasses/DeviceInterface.py`.
Python floats are modelled as exact rationals (reals where a square root is
computed); Python strings are modelled as `List Char`; Python exceptions are
modelled with `Option`/`Except`.
-/

namespace PyOneDark

/-! ## Python string and number primitives

These model the Python built-ins the parsing code relies on: `str.strip`,
`str.replace`, `str.split`, `float(...)` and `int(...)`. `float`/`int`
return `none` where Python raises `ValueError`. -/

/-- Drop the characters satisfying `p` from both ends of a character list:
Python `str.strip(chars)`. -/
def stripEnds (p : Char → Bool) (cs : List Char) : List Char :=
  ((cs.dropWhile p).reverse.dropWhile p).reverse

/-- Python `str.split(sep)` for a one-character separator: always at least
one field, empty fields preserved. -/
def splitOnChar (sep : Char) : List Char → List (List Char)
  | [] => [[]]
  | c :: rest =>
    if c = sep then [] :: splitOnChar sep rest
    else
      match splitOnChar sep rest with
      | [] => [[c]]
      | g :: gs => (c :: g) :: gs

/-- Digit run to a natural number (most significant first). -/
def digitsToNat (ds : List Char) : Nat :=
  ds.foldl (fun n c => 10 * n + (c.toNat - 48)) 0

/-- The character-level part of Python `float(s)`: optional surrounding
whitespace, optional sign, an integer part and/or a fractional part with one
dot. Returns the sign, the integer digits' value, the fraction digits' value
and the number of fraction digits; `none` where Python raises `ValueError`
(empty string, stray letters, two dots, a lone dot). Exponent forms do not
occur in this repository's data and are not modelled. -/
def parseDecimal (cs : List Char) : Option (Bool × ℕ × ℕ × ℕ) :=
  let t := stripEnds Char.isWhitespace cs
  let signBody : Bool × List Char :=
    match t with
    | '-' :: r => (true, r)
    | '+' :: r => (false, r)
    | r => (false, r)
  let body := signBody.2
  let intPart := body.takeWhile (fun c => c ≠ '.')
  let fracPart := (body.dropWhile (fun c => c ≠ '.')).drop 1
  if fracPart.any (fun c => c = '.') then none
  else if ¬ intPart.all Char.isDigit ∨ ¬ fracPart.all Char.isDigit then none
  else if intPart = [] ∧ fracPart = [] then none
  else some (signBody.1, digitsToNat intPart, digitsToNat fracPart, fracPart.length)

/-- The numeric value of a parsed decimal: integer part plus fraction scaled
by a power of ten, negated under a leading minus sign. -/
def decimalToRat (d : Bool × ℕ × ℕ × ℕ) : ℚ :=
  let mag : ℚ := (d.2.1 : ℚ) + (d.2.2.1 : ℚ) / (10 : ℚ) ^ d.2.2.2
  if d.1 then -mag else mag

/-- Python `float(s)` as an exact rational, `none` on `ValueError`. -/
def pyFloat (cs : List Char) : Option ℚ :=
  (parseDecimal cs).map decimalToRat

/-- Python `int(s)`: optional surrounding whitespace, optional sign, a
non-empty digit run; `none` where Python raises `ValueError`. -/
def pyInt (cs : List Char) : Option ℤ :=
  let t := stripEnds Char.isWhitespace cs
  let signBody : Bool × List Char :=
    match t with
    | '-' :: r => (true, r)
    | '+' :: r => (false, r)
    | r => (false, r)
  let body := signBody.2
  if body ≠ [] ∧ body.all Char.isDigit then
    some (if signBody.1 then -(digitsToNat body : ℤ) else (digitsToNat body : ℤ))
  else none

/-! ## DeviceInterface: the XY stage position query

`XYStageManager.get_current_position` (DeviceInterface.py lines 115-153,
real-hardware branch): the response line is stripped, split on commas,
required to have exactly 3 fields, and each field is cleaned — strip
whitespace, remove every carriage return, strip stray R markers from the
ends — and converted with `float`. Any `ValueError` is caught and the
sentinel `(None, None, None)` — here `none` — is returned; no branch
re-raises, so no exception reaches the caller. -/

/-- One field of the response: `float` of the field stripped of whitespace,
with every carriage return removed and R markers stripped from the ends
(DeviceInterface.py line 148). -/
def cleanFloat (v : List Char) : Option ℚ :=
  pyFloat (stripEnds (fun c => c = 'R')
    ((stripEnds Char.isWhitespace v).filter (fun c => c ≠ '\r')))

/-- Convert the comma-split fields: exactly 3 fields, each a float, else the
no-data sentinel (DeviceInterface.py lines 144-153). -/
def parse3 (values : List (List Char)) : Option (ℚ × ℚ × ℚ) :=
  match values with
  | [a, b, c] =>
    match cleanFloat a, cleanFloat b, cleanFloat c with
    | some x, some y, some z => some (x, y, z)
    | _, _, _ => none
  | _ => none

/-- The comma-split fields of the stripped response line
(DeviceInterface.py lines 142-144). -/
def responseFields (line : String) : List (List Char) :=
  splitOnChar ',' (stripEnds Char.isWhitespace line.toList)

/-- `XYStageManager.get_current_position` on a decoded response line; `none`
is the `(None, None, None)` sentinel. -/
def get_current_position (line : String) : Option (ℚ × ℚ × ℚ) :=
  parse3 (responseFields line)

theorem parse3_ne_three {values : List (List Char)} (h : values.length ≠ 3) :
    parse3 values = none := by
  match values with
  | [] => rfl
  | [_] => rfl
  | [_, _] => rfl
  | [_, _, _] => exact absurd rfl h
  | _ :: _ :: _ :: _ :: _ => rfl

/-- **C8**: the XY stage position query parses the real response line
`R12.500,R30.250,R0.000` — stripping the stray R markers and carriage
returns — to `(12.5, 30.25, 0.0)`; and on any response whose stripped line
does not split into exactly 3 comma-separated fields it returns the no-data
sentinel `(None, None, None)` (modelled `none`). The embedding is a total
function, mirroring that every `ValueError` is caught inside
`get_current_position` and never propagated to the caller. -/
theorem get_current_position_parses_and_rejects :
    (get_current_position "R12.500,R30.250,R0.000" = some (12.5, 30.25, 0)) ∧
    (∀ line : String, (responseFields line).length ≠ 3 →
      get_current_position line = none) := by
  constructor
  · have hf : responseFields "R12.500,R30.250,R0.000" =
        ["R12.500".toList, "R30.250".toList, "R0.000".toList] := by decide
    have c1 : cleanFloat "R12.500".toList = some (decimalToRat (false, 12, 500, 3)) := by
      rw [cleanFloat, pyFloat, show stripEnds (fun c => c = 'R')
        ((stripEnds Char.isWhitespace "R12.500".toList).filter (fun c => c ≠ '\r')) =
          "12.500".toList from by decide,
        show parseDecimal "12.500".toList = some (false, 12, 500, 3) from by decide]
      rfl
    have c2 : cleanFloat "R30.250".toList = some (decimalToRat (false, 30, 250, 3)) := by
      rw [cleanFloat, pyFloat, show stripEnds (fun c => c = 'R')
        ((stripEnds Char.isWhitespace "R30.250".toList).filter (fun c => c ≠ '\r')) =
          "30.250".toList from by decide,
        show parseDecimal "30.250".toList = some (false, 30, 250, 3) from by decide]
      rfl
    have c3 : cleanFloat "R0.000".toList = some (decimalToRat (false, 0, 0, 3)) := by
      rw [cleanFloat, pyFloat, show stripEnds (fun c => c = 'R')
        ((stripEnds Char.isWhitespace "R0.000".toList).filter (fun c => c ≠ '\r')) =
          "0.000".toList from by decide,
        show parseDecimal "0.000".toList = some (false, 0, 0, 3) from by decide]
      rfl
    rw [get_current_position, hf]
    simp only [parse3, c1, c2, c3]
    norm_num [decimalToRat]
  · intro line h
    exact parse3_ne_three h

/-- Witness for C8: the two-field response `12.5,30.25` yields the no-data
sentinel, by the theorem applied at that concrete line. -/
theorem get_current_position_short_response_witness :
    get_current_position "12.5,30.25" = none :=
  get_current_position_parses_and_rejects.2 "12.5,30.25" (by decide)

/-! ## ProcessCommand: the command-dispatch bus

`Processor._process_loop` (ProcessCommand.py lines 58-81) dequeues
`(command_name, args, kwargs)` triples in FIFO order and, per command,
either logs a no-handler notice (and drops the command) or invokes every
registered handler in registration order, catching and logging any handler
exception. The embedding abstracts a handler to an identifier plus whether
its body raises, and records the observable events of the loop. -/

/-- A registered handler: an identity and whether invoking it raises. -/
structure Handler where
  hid : ℕ
  raises : Bool
deriving DecidableEq, Repr

/-- The handler registry: `Processor._subscribers`, command name to the
handlers registered for it in registration order. -/
def Subscribers := List (String × List Handler)

/-- `self._subscribers.get(command_name, [])` (ProcessCommand.py line 70). -/
def handlersFor (subs : Subscribers) (name : String) : List Handler :=
  match subs.find? (fun p => p.1 = name) with
  | some p => p.2
  | none => []

/-- The observable events of the dispatch loop: a handler body starting, the
log line for a handler that raised, the log line for a command with no
registered handler. -/
inductive BusEvent where
  | called (hid : ℕ)
  | handlerErrorLogged (hid : ℕ)
  | noHandlerLogged (name : String)
deriving DecidableEq, Repr

/-- `try: handler(...) except: log` (ProcessCommand.py lines 75-80): the
handler is invoked; if it raises, the exception is caught and logged. -/
def runHandler (h : Handler) : List BusEvent :=
  BusEvent.called h.hid :: (if h.raises then [BusEvent.handlerErrorLogged h.hid] else [])

/-- Dispatch of one dequeued command (ProcessCommand.py lines 69-80). -/
def dispatchCommand (subs : Subscribers) (name : String) : List BusEvent :=
  match handlersFor subs name with
  | [] => [BusEvent.noHandlerLogged name]
  | h :: hs => (h :: hs).flatMap runHandler

/-- `Processor._process_loop` over a drained FIFO queue of command names. -/
def process_loop (subs : Subscribers) (queue : List String) : List BusEvent :=
  queue.flatMap (dispatchCommand subs)

/-- The handlers actually invoked, in order. -/
def calledIds (evts : List BusEvent) : List ℕ :=
  evts.filterMap (fun e =>
    match e with
    | BusEvent.called i => some i
    | _ => none)

theorem calledIds_append (a b : List BusEvent) :
    calledIds (a ++ b) = calledIds a ++ calledIds b :=
  List.filterMap_append a b _

theorem calledIds_flatMap_runHandler (hs : List Handler) :
    calledIds (hs.flatMap runHandler) = hs.map Handler.hid := by
  induction hs with
  | nil => rfl
  | cons x xs ih =>
    rw [List.flatMap_cons, calledIds_append, ih, List.map_cons]
    cases hx : x.raises <;> simp [runHandler, hx, calledIds]

theorem calledIds_dispatchCommand (subs : Subscribers) (name : String) :
    calledIds (dispatchCommand subs name) = (handlersFor subs name).map Handler.hid := by
  rw [dispatchCommand]
  cases h : handlersFor subs name with
  | nil => rfl
  | cons hd tl => exact calledIds_flatMap_runHandler (hd :: tl)

/-- **C9**: handler exceptions are isolated. (1) Across any queue of
dispatched commands, the handlers invoked are exactly all handlers
registered for each command, in queue order then registration order —
independent of which handler bodies raise, so a raising handler never
prevents the remaining handlers of its command nor any later command's
handlers from being invoked. (2) Dispatch of a dequeued command is followed
by dispatch of the rest of the queue unconditionally. (3) A command with no
registered handlers is logged and dropped without error. -/
theorem handler_exceptions_isolated :
    (∀ (subs : Subscribers) (queue : List String),
      calledIds (process_loop subs queue) =
        queue.flatMap (fun name => (handlersFor subs name).map Handler.hid)) ∧
    (∀ (subs : Subscribers) (name : String) (queue : List String),
      process_loop subs (name :: queue) =
        dispatchCommand subs name ++ process_loop subs queue) ∧
    (∀ (subs : Subscribers) (name : String), handlersFor subs name = [] →
      dispatchCommand subs name = [BusEvent.noHandlerLogged name]) := by
  refine ⟨fun subs queue => ?_, fun subs name queue => List.flatMap_cons .., ?_⟩
  · induction queue with
    | nil => rfl
    | cons n rest ih =>
      rw [process_loop, List.flatMap_cons, calledIds_append, ← process_loop, ih,
        calledIds_dispatchCommand, List.flatMap_cons]
  · intro subs name h
    rw [dispatchCommand, h]

/-- Registry for the witness: two handlers on command `a` — the first
raises — and one on command `b`. -/
def demoSubscribers : Subscribers :=
  [("a", [⟨0, true⟩, ⟨1, false⟩]), ("b", [⟨2, false⟩])]

/-- Witness for C9, by the theorem at a concrete registry and queue: the
raising handler 0 does not stop handler 1, the unregistered command `nope`
is dropped, and command `b`'s handler 2 still fires. -/
theorem handler_exceptions_isolated_witness :
    calledIds (process_loop demoSubscribers ["a", "nope", "b"]) = [0, 1, 2] :=
  (handler_exceptions_isolated.1 demoSubscribers ["a", "nope", "b"]).trans (by decide)

/-! ## ProcessCommand: StageHandler state and velocity handlers

`StageHandler.__init__` (ProcessCommand.py lines 92-142) creates the
per-axis state dictionaries with all-zero values and both group running
flags false. The speed multipliers `zspeed`, `pspeed` and `xyspeed` read by
the velocity handlers (lines 162, 169, 176, 183, 190-191) are **never
assigned anywhere in the repository**; they are modelled as optional
attributes that are absent (`none`) and whose lookup raises
`AttributeError`, as Python attribute access does. -/

/-- One axis record of `zp_state` / `xy_state` (ProcessCommand.py
lines 106-124). -/
structure AxisState where
  position : ℚ
  velocity : ℚ
  active : Bool
  user_deactivated : Bool
deriving DecidableEq, Repr

/-- The all-zero axis record every axis starts with. -/
def AxisState.init : AxisState := ⟨0, 0, false, false⟩

/-- The `StageHandler` state: group running flags, the four ZP axes, the
three XY axes, and the three speed-multiplier attributes (absent unless
some code assigns them — none does). -/
structure StageHandlerState where
  zp_running : Bool
  xy_running : Bool
  zp_Z : AxisState
  zp_P1 : AxisState
  zp_P2 : AxisState
  zp_P3 : AxisState
  xy_x : AxisState
  xy_y : AxisState
  xy_f : AxisState
  zspeed : Option ℚ
  pspeed : Option ℚ
  xyspeed : Option ℚ
deriving DecidableEq, Repr

/-- The state `StageHandler.__init__` builds: stages off, axes zeroed, and
no speed-multiplier attribute assigned. -/
def initStageHandlerState : StageHandlerState :=
  ⟨false, false, AxisState.init, AxisState.init, AxisState.init, AxisState.init,
    AxisState.init, AxisState.init, AxisState.init, none, none, none⟩

/-- The `average` payload of a velocity command: Python passes a scalar or a
2-tuple; `none` models the keyword being absent. -/
inductive PyVal where
  | scalar (v : ℚ)
  | pair (v1 v2 : ℚ)
deriving DecidableEq, Repr

/-- Python exceptions observable in this core. -/
inductive PyErr where
  | attributeError (name : String)
  | typeError (kwarg : String)
deriving DecidableEq, Repr

/-- `StageHandler._extract_velocity` (ProcessCommand.py lines 195-207):
absent `average` means velocity `0.0`; a tuple yields its first two
elements; a scalar `v` yields `(v, 0.0)`. -/
def extract_velocity (average : Option PyVal) : ℚ × ℚ :=
  match average with
  | none => (0, 0)
  | some (PyVal.scalar v) => (v, 0)
  | some (PyVal.pair v1 v2) => (v1, v2)

/-- `next((v for v in [v1, v2] if v != 0), 0.0)` (ProcessCommand.py
line 161): the first non-zero element, `0.0` when both are zero. -/
def firstNonzero (v1 v2 : ℚ) : ℚ :=
  if v1 ≠ 0 then v1 else if v2 ≠ 0 then v2 else 0

/-- Python attribute access on an optional attribute: raises
`AttributeError` when the attribute was never assigned. -/
def getattrQ (a : Option ℚ) (name : String) : Except PyErr ℚ :=
  match a with
  | some v => Except.ok v
  | none => Except.error (PyErr.attributeError name)

/-- `StageHandler.update_z_velocity` (ProcessCommand.py lines 158-163): the
first non-zero element of the payload, scaled by `self.zspeed`, is stored as
the Z velocity and the active flag is set iff it is non-zero. The
multiplication evaluates `self.zspeed` before anything is stored. -/
def update_z_velocity (st : StageHandlerState) (average : Option PyVal) :
    Except PyErr StageHandlerState :=
  let v := extract_velocity average
  let velocity := firstNonzero v.1 v.2
  match getattrQ st.zspeed "zspeed" with
  | Except.error e => Except.error e
  | Except.ok m =>
    Except.ok { st with
      zp_Z := { st.zp_Z with velocity := velocity * m, active := decide (velocity ≠ 0) } }

/-- `StageHandler.update_p1_velocity` (ProcessCommand.py lines 165-170);
`update_p2_velocity` and `update_p3_velocity` are identical up to the axis
record they write. -/
def update_p1_velocity (st : StageHandlerState) (average : Option PyVal) :
    Except PyErr StageHandlerState :=
  let v := extract_velocity average
  let velocity := firstNonzero v.1 v.2
  match getattrQ st.pspeed "pspeed" with
  | Except.error e => Except.error e
  | Except.ok m =>
    Except.ok { st with
      zp_P1 := { st.zp_P1 with velocity := velocity * m, active := decide (velocity ≠ 0) } }

/-- `StageHandler.update_xy_velocity` (ProcessCommand.py lines 187-193):
stores both components scaled by `self.xyspeed`; the first store evaluates
`self.xyspeed` before anything is written. -/
def update_xy_velocity (st : StageHandlerState) (average : Option PyVal) :
    Except PyErr StageHandlerState :=
  let v := extract_velocity average
  match getattrQ st.xyspeed "xyspeed" with
  | Except.error e => Except.error e
  | Except.ok m =>
    Except.ok { st with
      xy_x := { st.xy_x with velocity := v.1 * m, active := decide (v.1 ≠ 0) },
      xy_y := { st.xy_y with velocity := v.2 * m, active := decide (v.2 ≠ 0) } }

/-! ## ProcessCommand: the stage velocity-command loops -/

/-- `self.ZUPDATE_INTERVAL` (ProcessCommand.py line 94). -/
def ZUPDATE_INTERVAL : ℚ := 1 / 2

/-- `self.XYUPDATE_INTERVAL` (ProcessCommand.py line 93). -/
def XYUPDATE_INTERVAL : ℚ := 1

/-- `ZPStageManager.movecommand` (DeviceInterface.py lines 274-287) filters
out zero-delta axes: the emitted G0 frame carries exactly the axes with a
non-zero delta, in this order. -/
def movecommandAxes (axes : List (String × ℚ)) : List (String × ℚ) :=
  axes.filter (fun ad => ad.2 ≠ 0)

/-- `StageHandler.send_zp_move_command` (ProcessCommand.py lines 232-249):
per-axis delta = velocity × interval; if the Euclidean distance is zero
(equivalently, the sum of squared deltas is zero) no command is sent,
otherwise the composite relative G0 move is emitted with the controller
axis mapping Z→X, P1→Y, P2→Z, P3→E. The result is the axis list of the
emitted frame, `none` when nothing is sent. -/
def send_zp_move_command (st : StageHandlerState) : Option (List (String × ℚ)) :=
  let dt := ZUPDATE_INTERVAL
  let dz := st.zp_Z.velocity * dt
  let dp1 := st.zp_P1.velocity * dt
  let dp2 := st.zp_P2.velocity * dt
  let dp3 := st.zp_P3.velocity * dt
  if dz ^ 2 + dp1 ^ 2 + dp2 ^ 2 + dp3 ^ 2 = 0 then none
  else some (movecommandAxes [("X", dz), ("Y", dp1), ("Z", dp2), ("E", dp3)])

/-- One iteration of `StageHandler._zp_stage_loop` (ProcessCommand.py
lines 210-218): when the group is running and any ZP axis has a non-zero
stored velocity, the composite move command is sent. The per-axis
`user_deactivated` flags are not read anywhere in the loop or in
`send_zp_move_command`. -/
def zp_stage_tick (st : StageHandlerState) : Option (List (String × ℚ)) :=
  if st.zp_running = true ∧ (st.zp_Z.velocity ≠ 0 ∨ st.zp_P1.velocity ≠ 0 ∨
      st.zp_P2.velocity ≠ 0 ∨ st.zp_P3.velocity ≠ 0) then
    send_zp_move_command st
  else none

/-- One iteration of `StageHandler._xy_stage_loop` (ProcessCommand.py
lines 220-230): when the group is running and the current `(vx, vy)` pair
differs from the last pair sent, `move_stage_at_velocity(vx, vy)` is issued
and remembered. Returns the issued write (if any) and the updated
`last_xy_velocity`; the initial `last_xy_velocity = (None, None)` is
modelled as `none`. The `user_deactivated` flags are not read. -/
def xy_stage_tick (st : StageHandlerState) (last_xy_velocity : Option (ℚ × ℚ)) :
    Option (ℚ × ℚ) × Option (ℚ × ℚ) :=
  if st.xy_running = true then
    let current := (st.xy_x.velocity, st.xy_y.velocity)
    if some current ≠ last_xy_velocity then (some current, some current)
    else (none, last_xy_velocity)
  else (none, last_xy_velocity)

/-- Number of hardware writes an XY tick issued (0 or 1). -/
def writeCount : Option (ℚ × ℚ) → ℕ
  | none => 0
  | some _ => 1

theorem writeCount_le_one (o : Option (ℚ × ℚ)) : writeCount o ≤ 1 := by
  cases o <;> simp [writeCount]

/-- **C10**: (1) an XY tick issues a hardware velocity write iff the group
is running and the current `(vx, vy)` pair differs from the last pair sent
(initially none was sent); (2) across any two consecutive ticks whose
commanded `(vx, vy)` is unchanged, at most one hardware write is issued. -/
theorem xy_write_iff_changed :
    (∀ (st : StageHandlerState) (last : Option (ℚ × ℚ)),
      (xy_stage_tick st last).1.isSome = true ↔
        (st.xy_running = true ∧ some (st.xy_x.velocity, st.xy_y.velocity) ≠ last)) ∧
    (∀ (st st' : StageHandlerState) (last : Option (ℚ × ℚ)),
      st'.xy_x.velocity = st.xy_x.velocity →
      st'.xy_y.velocity = st.xy_y.velocity →
      writeCount (xy_stage_tick st last).1 +
        writeCount (xy_stage_tick st' (xy_stage_tick st last).2).1 ≤ 1) := by
  constructor
  · intro st last
    rw [xy_stage_tick]
    by_cases hr : st.xy_running = true
    · rw [if_pos hr]
      by_cases hch : some (st.xy_x.velocity, st.xy_y.velocity) ≠ last
      · rw [if_pos hch]
        simpa using ⟨hr, hch⟩
      · rw [if_neg hch]
        simp only [Option.isSome_none, Bool.false_eq_true, false_iff]
        intro h
        exact absurd h.2 hch
    · rw [if_neg hr]
      simp only [Option.isSome_none, Bool.false_eq_true, false_iff]
      intro h
      exact absurd h.1 hr
  · intro st st' last hx hy
    by_cases hr : st.xy_running = true
    · by_cases hch : some (st.xy_x.velocity, st.xy_y.velocity) ≠ last
      · have t1 : xy_stage_tick st last =
            (some (st.xy_x.velocity, st.xy_y.velocity),
             some (st.xy_x.velocity, st.xy_y.velocity)) := by
          rw [xy_stage_tick, if_pos hr, if_pos hch]
        rw [t1, xy_stage_tick]
        by_cases hr' : st'.xy_running = true
        · rw [if_pos hr', if_neg (by rw [hx, hy]; exact fun h => h rfl)]
          simp [writeCount]
        · rw [if_neg hr']
          simp [writeCount]
      · have t1 : xy_stage_tick st last = (none, last) := by
          rw [xy_stage_tick, if_pos hr, if_neg hch]
        rw [t1]
        simpa [writeCount] using writeCount_le_one (xy_stage_tick st' last).1
    · have t1 : xy_stage_tick st last = (none, last) := by
        rw [xy_stage_tick, if_neg hr]
      rw [t1]
      simpa [writeCount] using writeCount_le_one (xy_stage_tick st' last).1

/-- XY group running with a non-zero commanded velocity, for the C10
witness. -/
def demoXYState : StageHandlerState :=
  { initStageHandlerState with
    xy_running := true
    xy_x := { AxisState.init with velocity := 5 } }

/-- Witness for C10, by the theorem at a concrete state: two consecutive
ticks with the unchanged pair `(5, 0)` issue at most one write. -/
theorem xy_write_iff_changed_witness :
    writeCount (xy_stage_tick demoXYState none).1 +
      writeCount (xy_stage_tick demoXYState (xy_stage_tick demoXYState none).2).1 ≤ 1 :=
  xy_write_iff_changed.2 demoXYState demoXYState none rfl rfl

/-- A state reachable through `handle_set_axis_deactivation` and
`set_stage_info`: both groups running, the ZP axis Z and the XY axis x
user-deactivated while holding a non-zero stored velocity. -/
def deactivatedDemoState : StageHandlerState :=
  { initStageHandlerState with
    zp_running := true
    xy_running := true
    zp_Z := { position := 0, velocity := 5, active := true, user_deactivated := true }
    xy_x := { position := 0, velocity := 3, active := true, user_deactivated := true } }

/-- **C1** (evidence of the code bug): with axis Z of the ZP group
user-deactivated and holding velocity 5, the ZP loop tick still emits a
composite G0 move whose axis list contains the mapped controller axis `X`
with delta 5 × 0.5 = 5/2 — neither `_zp_stage_loop` nor
`send_zp_move_command` reads `user_deactivated`. Likewise, with XY axis x
user-deactivated and holding velocity 3, the XY loop tick still issues the
hardware write `(3, 0)`. The claim that the loops never issue motion on a
user-deactivated axis is false of the code. -/
theorem deactivated_axes_still_commanded :
    deactivatedDemoState.zp_Z.user_deactivated = true ∧
    deactivatedDemoState.xy_x.user_deactivated = true ∧
    zp_stage_tick deactivatedDemoState = some [("X", 5 / 2)] ∧
    (xy_stage_tick deactivatedDemoState none).1 = some (3, 0) := by
  refine ⟨rfl, rfl, ?_, ?_⟩
  · norm_num [zp_stage_tick, send_zp_move_command, movecommandAxes, ZUPDATE_INTERVAL,
      deactivatedDemoState, initStageHandlerState, AxisState.init, List.filter]
  · simp [xy_stage_tick, deactivatedDemoState, initStageHandlerState, AxisState.init]

/-- **C6** (evidence of the code bug): the speed multipliers `zspeed`,
`pspeed` and `xyspeed` are read by every velocity handler but never assigned
anywhere in the repository, so on the state `StageHandler.__init__` builds,
every `update_<axis>_velocity` call raises `AttributeError` at the
multiplication and stores nothing — the velocity and active flag described
by the claim are never written. The payload handling up to that point does
match the claim: a scalar is `(scalar, 0.0)` and the first non-zero tuple
element is selected. -/
theorem update_velocity_raises_attribute_error :
    (initStageHandlerState.zspeed = none ∧ initStageHandlerState.pspeed = none ∧
      initStageHandlerState.xyspeed = none) ∧
    update_z_velocity initStageHandlerState (some (PyVal.pair 5 0)) =
      Except.error (PyErr.attributeError "zspeed") ∧
    update_p1_velocity initStageHandlerState (some (PyVal.pair 0 7)) =
      Except.error (PyErr.attributeError "pspeed") ∧
    update_xy_velocity initStageHandlerState (some (PyVal.pair 3 4)) =
      Except.error (PyErr.attributeError "xyspeed") ∧
    extract_velocity (some (PyVal.scalar 5)) = (5, 0) ∧
    firstNonzero 0 7 = 7 :=
  ⟨⟨rfl, rfl, rfl⟩, rfl, rfl, rfl, rfl, rfl⟩

/-! ## PrintManager: well-position lookup

`PrintManager.find_well_xy` (ProcessCommand.py lines 904-951). The well
properties are `None` until configured; `float(None)`/`int(None)` raise and
the handler returns `None`, modelled by the `Option` fields. -/

/-- The well-plate entries of `PrintManager.well_properties` that
`find_well_xy` reads (ProcessCommand.py lines 504-505, 913-918). -/
structure WellProperties where
  well_dx : Option ℚ
  well_dy : Option ℚ
  Well_A1_x : Option ℚ
  Well_A1_y : Option ℚ
  well_cols : Option ℤ
  well_rows : Option ℤ
deriving DecidableEq, Repr

/-- `PrintManager.find_well_xy` (ProcessCommand.py lines 904-951): missing
properties, an identifier failing `len(well_id) < 3`, an unparsable column
number, or an out-of-range row/column yield `None`; otherwise the position
is origin + (column-index × dx, row-index × dy) with the row index taken
from the first character and the column index from the rest minus 1. -/
def find_well_xy (props : WellProperties) (well_id : String) : Option (ℚ × ℚ) :=
  match props.well_dx, props.well_dy, props.Well_A1_x, props.Well_A1_y,
      props.well_cols, props.well_rows with
  | some dx, some dy, some x0, some y0, some cols, some rows =>
    let cs := well_id.toList
    if cs.length = 0 ∨ cs.length < 3 then none
    else
      match cs with
      | [] => none
      | c :: rest =>
        let row : ℤ := (c.toUpper.toNat : ℤ) - ('A'.toNat : ℤ)
        match pyInt rest with
        | none => none
        | some colNum =>
          let col : ℤ := colNum - 1
          if ¬ (0 ≤ row ∧ row < rows) ∨ ¬ (0 ≤ col ∧ col < cols) then none
          else some (x0 + (col : ℚ) * dx, y0 + (row : ℚ) * dy)
  | _, _, _, _, _, _ => none

/-- The plate of the claim: origin (0,0), spacing (9,9), 12 columns,
8 rows. -/
def claimWellProperties : WellProperties :=
  ⟨some 9, some 9, some 0, some 0, some 12, some 8⟩

/-- **C2** (evidence of the code bug): with the claim's plate — origin
(0,0), spacing (9,9), 8 rows × 12 columns — the lookup returns no position
for `A1` and `B2`: the guard `len(well_id) < 3` (ProcessCommand.py
line 924) rejects every two-character identifier, although the function's
own docstring gives 'A1' as the expected format. `Z9` also yields `none`,
but through the same length guard rather than the documented range check.
The three-character identifier `A10` follows the documented formula
(column 9 × 9 = 81), showing the remainder of the lookup matches the
claim. -/
theorem find_well_xy_rejects_short_ids :
    find_well_xy claimWellProperties "A1" = none ∧
    find_well_xy claimWellProperties "B2" = none ∧
    find_well_xy claimWellProperties "Z9" = none ∧
    find_well_xy claimWellProperties "A10" = some (81, 0) := by
  refine ⟨rfl, rfl, rfl, ?_⟩
  rw [show find_well_xy claimWellProperties "A10" =
    some (0 + ((10 - 1 : ℤ) : ℚ) * 9, 0 + ((0 : ℤ) : ℚ) * 9) from rfl]
  norm_num

/-! ## PrintManager: the print threads' interpolation call

`Waypoint.interpolate_waypoints` (ProcessCommand.py line 1043) has keyword
parameters `x0, y0, z0, p1, p2, p3, interpolation_type` after
`elapsed_time`. The print threads (lines 580-582 and 671-673) call it with
keyword arguments `p10`, `p20`, `p30`. Python binds keyword arguments to
parameter names before the callee body runs; a keyword that names no
parameter of a function without a var-keyword parameter raises
`TypeError`. -/

/-- The parameters of `interpolate_waypoints` after `self`
(ProcessCommand.py line 1043). -/
def interpolate_waypoints_params : List String :=
  ["elapsed_time", "x0", "y0", "z0", "p1", "p2", "p3", "interpolation_type"]

/-- The keyword-argument names of the `xy_print_thread` call
(ProcessCommand.py lines 580-582); one positional argument precedes them. -/
def xy_print_call_kwargs : List String :=
  ["x0", "y0", "z0", "p10", "p20", "p30", "interpolation_type"]

/-- The keyword-argument names of the `zp_print_thread` call
(ProcessCommand.py lines 671-673); one positional argument precedes them. -/
def zp_print_call_kwargs : List String :=
  ["x0", "y0", "z0", "p10", "p20", "p30", "interpolation_type"]

/-- Python call binding for a function with no var-keyword parameter: the
first keyword argument naming no parameter raises `TypeError`; otherwise
the call proceeds if the positional arguments fit. -/
def bindCall (params : List String) (numPositional : ℕ) (kwargs : List String) :
    Except PyErr Unit :=
  match kwargs.find? (fun k => !(params.contains k)) with
  | some k => Except.error (PyErr.typeError k)
  | none =>
    if numPositional ≤ params.length then Except.ok ()
    else Except.error (PyErr.typeError "positional")

/-- The interpolation call of one `xy_print_thread` tick: its binding
outcome. An `Except.error` means the tick raises before any interpolated
target — and hence any PID velocity command — is produced. -/
def xy_print_tick_interpolation : Except PyErr Unit :=
  bindCall interpolate_waypoints_params 1 xy_print_call_kwargs

/-- The interpolation call of one `zp_print_thread` tick. -/
def zp_print_tick_interpolation : Except PyErr Unit :=
  bindCall interpolate_waypoints_params 1 zp_print_call_kwargs

/-- **C3**: `p10`, `p20`, `p30` are not parameters of
`interpolate_waypoints`, so the interpolation call of every XY print tick
and of every ZP print tick raises `TypeError` (at the first unexpected
keyword, `p10`) — the threads never obtain an interpolated target and never
derive a velocity command from one. -/
theorem print_threads_interpolation_type_error :
    ¬ ("p10" ∈ interpolate_waypoints_params) ∧
    ¬ ("p20" ∈ interpolate_waypoints_params) ∧
    ¬ ("p30" ∈ interpolate_waypoints_params) ∧
    xy_print_tick_interpolation = Except.error (PyErr.typeError "p10") ∧
    zp_print_tick_interpolation = Except.error (PyErr.typeError "p10") :=
  ⟨by decide, by decide, by decide, rfl, rfl⟩

/-! ## PrintManager: PID velocity control with clamping

`PrintManager.calculate_velocity_with_pid` (ProcessCommand.py lines 522-545)
and the clamping step of `xy_print_thread` (lines 596-602). Float arithmetic
is modelled over the reals; `np.hypot` is the Euclidean magnitude. -/

/-- The PID fields of `PrintManager` (ProcessCommand.py lines 493-501). -/
structure PIDState where
  Kp : ℝ
  Ki : ℝ
  Kd : ℝ
  error_sum_x : ℝ
  error_sum_y : ℝ
  last_error_x : ℝ
  last_error_y : ℝ
  max_velocity : ℝ

/-- `PrintManager.calculate_velocity_with_pid` (lines 522-545): returns the
mutated PID state (integral accumulated, last errors updated) and the raw
velocity pair `(vx, vy)`. -/
noncomputable def calculate_velocity_with_pid (st : PIDState)
    (error_x error_y delta_time : ℝ) : PIDState × ℝ × ℝ :=
  let P_x := st.Kp * error_x
  let P_y := st.Kp * error_y
  let sx := st.error_sum_x + error_x * delta_time
  let sy := st.error_sum_y + error_y * delta_time
  let I_x := st.Ki * sx
  let I_y := st.Ki * sy
  let D_x := if 0 < delta_time then st.Kd * ((error_x - st.last_error_x) / delta_time) else 0
  let D_y := if 0 < delta_time then st.Kd * ((error_y - st.last_error_y) / delta_time) else 0
  ({ st with
      error_sum_x := sx
      error_sum_y := sy
      last_error_x := error_x
      last_error_y := error_y },
    P_x + I_x + D_x, P_y + I_y + D_y)

/-- `np.hypot`. -/
noncomputable def np_hypot (x y : ℝ) : ℝ := Real.sqrt (x ^ 2 + y ^ 2)

/-- The PID computation followed by the clamp of `xy_print_thread`
(lines 596-602): when the magnitude of `(vx, vy)` exceeds `max_velocity`
the pair is rescaled by `max_velocity / hypot` and both integral
accumulators are reset to zero; otherwise the pair passes through. The
issued command is the returned pair. -/
noncomputable def xy_pid_tick (st : PIDState) (error_x error_y delta_time : ℝ) :
    PIDState × ℝ × ℝ :=
  if st.max_velocity < np_hypot (calculate_velocity_with_pid st error_x error_y delta_time).2.1
      (calculate_velocity_with_pid st error_x error_y delta_time).2.2 then
    ({ (calculate_velocity_with_pid st error_x error_y delta_time).1 with
        error_sum_x := 0
        error_sum_y := 0 },
      (calculate_velocity_with_pid st error_x error_y delta_time).2.1 *
        (st.max_velocity / np_hypot (calculate_velocity_with_pid st error_x error_y delta_time).2.1
          (calculate_velocity_with_pid st error_x error_y delta_time).2.2),
      (calculate_velocity_with_pid st error_x error_y delta_time).2.2 *
        (st.max_velocity / np_hypot (calculate_velocity_with_pid st error_x error_y delta_time).2.1
          (calculate_velocity_with_pid st error_x error_y delta_time).2.2))
  else calculate_velocity_with_pid st error_x error_y delta_time

theorem np_hypot_mul (a b c : ℝ) : np_hypot (a * c) (b * c) = |c| * np_hypot a b := by
  rw [np_hypot, np_hypot, mul_pow, mul_pow, ← add_mul, mul_comm,
    Real.sqrt_mul (by positivity), Real.sqrt_sq_eq_abs, mul_comm]

/-- **C4**: on any XY control tick whose PID-computed `(vx, vy)` has
magnitude exceeding the (non-negative) configured `max_velocity`, the
velocity actually issued is that vector rescaled by
`max_velocity / hypot(vx, vy)` — so its magnitude is exactly
`max_velocity` — and both integral accumulators are zero immediately after
the tick. In particular a sustained large error that makes every tick
clamp leaves the integral terms at zero after each tick, so they never
grow unboundedly. -/
theorem pid_clamp_resets_integral (st : PIDState) (ex ey dt : ℝ)
    (hmax : 0 ≤ st.max_velocity)
    (hbig : st.max_velocity <
      np_hypot (calculate_velocity_with_pid st ex ey dt).2.1
        (calculate_velocity_with_pid st ex ey dt).2.2) :
    np_hypot (xy_pid_tick st ex ey dt).2.1 (xy_pid_tick st ex ey dt).2.2 = st.max_velocity ∧
    (xy_pid_tick st ex ey dt).1.error_sum_x = 0 ∧
    (xy_pid_tick st ex ey dt).1.error_sum_y = 0 ∧
    (xy_pid_tick st ex ey dt).2.1 = (calculate_velocity_with_pid st ex ey dt).2.1 *
      (st.max_velocity / np_hypot (calculate_velocity_with_pid st ex ey dt).2.1
        (calculate_velocity_with_pid st ex ey dt).2.2) ∧
    (xy_pid_tick st ex ey dt).2.2 = (calculate_velocity_with_pid st ex ey dt).2.2 *
      (st.max_velocity / np_hypot (calculate_velocity_with_pid st ex ey dt).2.1
        (calculate_velocity_with_pid st ex ey dt).2.2) := by
  have hpos : 0 < np_hypot (calculate_velocity_with_pid st ex ey dt).2.1
      (calculate_velocity_with_pid st ex ey dt).2.2 := lt_of_le_of_lt hmax hbig
  rw [xy_pid_tick, if_pos hbig]
  refine ⟨?_, rfl, rfl, rfl, rfl⟩
  rw [np_hypot_mul, abs_of_nonneg (div_nonneg hmax (le_of_lt hpos)), div_mul_cancel₀]
  exact ne_of_gt hpos

/-- The PID configuration `PrintManager.__init__` sets (lines 494-501):
Kp 1, Ki 0, Kd 0, zero accumulators, `max_velocity` 1000. -/
def printManagerPID : PIDState := ⟨1, 0, 0, 0, 0, 0, 0, 1000⟩

/-- Witness for C4, by the theorem at the init PID configuration and the
sustained error `(3000, 4000)`: the raw PID velocity has magnitude 5000 >
1000, so the tick issues a vector of magnitude exactly 1000 and leaves both
integral accumulators at zero. -/
theorem pid_clamp_resets_integral_witness :
    (xy_pid_tick printManagerPID 3000 4000 1).1.error_sum_x = 0 ∧
    (xy_pid_tick printManagerPID 3000 4000 1).1.error_sum_y = 0 ∧
    np_hypot (xy_pid_tick printManagerPID 3000 4000 1).2.1
      (xy_pid_tick printManagerPID 3000 4000 1).2.2 = printManagerPID.max_velocity := by
  have hvx : (calculate_velocity_with_pid printManagerPID 3000 4000 1).2.1 = 3000 := by
    norm_num [calculate_velocity_with_pid, printManagerPID]
  have hvy : (calculate_velocity_with_pid printManagerPID 3000 4000 1).2.2 = 4000 := by
    norm_num [calculate_velocity_with_pid, printManagerPID]
  have h5 : np_hypot (3000 : ℝ) 4000 = 5000 := by
    rw [np_hypot, show ((3000 : ℝ) ^ 2 + 4000 ^ 2) = 5000 ^ 2 by norm_num,
      Real.sqrt_sq (by norm_num)]
  have hbig : printManagerPID.max_velocity <
      np_hypot (calculate_velocity_with_pid printManagerPID 3000 4000 1).2.1
        (calculate_velocity_with_pid printManagerPID 3000 4000 1).2.2 := by
    rw [hvx, hvy, h5]; norm_num [printManagerPID]
  have H := pid_clamp_resets_integral printManagerPID 3000 4000 1
    (by norm_num [printManagerPID]) hbig
  exact ⟨H.2.1, H.2.2.1, H.1⟩

/-! ## Waypoint: CSV import

`Waypoint.import_waypoints_from_csv` (ProcessCommand.py lines 1013-1041):
one `try` block wraps the whole row loop. Per row: a first cell starting
with `x` is skipped as a header; a row of exactly 7 cells is converted with
`map(float, row)`; any other non-zero row length is logged and the loop
continues. An empty row makes `row[0]` raise `IndexError`, and a
non-numeric cell in a 7-cell row makes `float` raise `ValueError`; both
escape to the outer `except`, which stops the load — rows already parsed
are kept, later rows are discarded. -/

/-- One waypoint record `x,y,z,p1,p2,p3,t` (ProcessCommand.py
lines 1025-1033). -/
structure WaypointRec where
  x : ℚ
  y : ℚ
  z : ℚ
  p1 : ℚ
  p2 : ℚ
  p3 : ℚ
  t : ℚ
deriving DecidableEq, Repr

/-- Python `row[0].startswith('x')` on the first cell. -/
def startsWithX (cell : List Char) : Bool :=
  match cell with
  | 'x' :: _ => true
  | _ => false

/-- `map(float, row)` on a 7-cell row to one waypoint record; `none` when
some cell raises `ValueError`. -/
def parseRow7 (row : List (List Char)) : Option WaypointRec :=
  match row.map pyFloat with
  | [some x, some y, some z, some q1, some q2, some q3, some t] =>
    some ⟨x, y, z, q1, q2, q3, t⟩
  | _ => none

/-- The row loop of `import_waypoints_from_csv` with the waypoints
accumulated so far: an empty row (`IndexError` on `row[0]`) or a failing
`float` conversion reaches the `except` around the loop and ends the load,
returning the rows accumulated up to that point. -/
def importRows (acc : List WaypointRec) : List (List (List Char)) → List WaypointRec
  | [] => acc
  | row :: rest =>
    match row with
    | [] => acc
    | c :: _ =>
      if startsWithX c then importRows acc rest
      else if row.length = 7 then
        match parseRow7 row with
        | some wp => importRows (acc ++ [wp]) rest
        | none => acc
      else importRows acc rest

/-- `Waypoint.import_waypoints_from_csv` on the rows read from the file. -/
def import_waypoints_from_csv (rows : List (List (List Char))) : List WaypointRec :=
  importRows [] rows

/-- The per-row behaviour the claim describes: skip header rows, convert
7-cell rows, discard rows of any other length — each row treated
independently, no abort. -/
def importSpec (rows : List (List (List Char))) : List WaypointRec :=
  rows.filterMap (fun row =>
    match row with
    | [] => none
    | c :: _ =>
      if startsWithX c then none
      else if row.length = 7 then parseRow7 row
      else none)

theorem importRows_eq (rows : List (List (List Char)))
    (hne : ∀ r ∈ rows, r ≠ [])
    (hnum : ∀ r ∈ rows, startsWithX (r.headD []) = false → r.length = 7 →
      (parseRow7 r).isSome = true) :
    ∀ acc, importRows acc rows = acc ++ importSpec rows := by
  induction rows with
  | nil => intro acc; simp [importRows, importSpec]
  | cons row rest ih =>
    intro acc
    have hne' : ∀ r ∈ rest, r ≠ [] := fun r hr => hne r (List.mem_cons_of_mem _ hr)
    have hnum' : ∀ r ∈ rest, startsWithX (r.headD []) = false → r.length = 7 →
        (parseRow7 r).isSome = true := fun r hr => hnum r (List.mem_cons_of_mem _ hr)
    obtain ⟨c, rr, rfl⟩ : ∃ c rr, row = c :: rr := by
      cases row with
      | nil => exact absurd rfl (hne [] (List.mem_cons_self _ _))
      | cons a b => exact ⟨a, b, rfl⟩
    by_cases hs : startsWithX c = true
    · rw [show importRows acc ((c :: rr) :: rest) = importRows acc rest from by
        simp [importRows, hs]]
      rw [show importSpec ((c :: rr) :: rest) = importSpec rest from by
        simp [importSpec, hs]]
      exact ih hne' hnum' acc
    · have hsf : startsWithX c = false := by simpa using hs
      by_cases hl : (c :: rr).length = 7
      · obtain ⟨wp, hwp⟩ := Option.isSome_iff_exists.mp
          (hnum _ (List.mem_cons_self _ _) (by simpa using hsf) hl)
        rw [show importRows acc ((c :: rr) :: rest) = importRows (acc ++ [wp]) rest from by
          simp [importRows, hsf, hl, hwp]]
        rw [show importSpec ((c :: rr) :: rest) = wp :: importSpec rest from by
          simp [importSpec, hsf, hl, hwp]]
        rw [ih hne' hnum' (acc ++ [wp])]
        simp
      · have hl6 : ¬ rr.length = 6 := fun h => hl (by simp [h])
        rw [show importRows acc ((c :: rr) :: rest) = importRows acc rest from by
          simp [importRows, hsf, hl, hl6]]
        rw [show importSpec ((c :: rr) :: rest) = importSpec rest from by
          simp [importSpec, hsf, hl, hl6]]
        exact ih hne' hnum' acc

/-- **C7 (amended)**: provided every row is non-empty and every
non-header 7-cell row is fully numeric, the import skips
first-cell-starts-with-'x' header rows, converts each 7-cell row to one
waypoint record in file order, and logs and discards every row of a
different (non-zero) length without aborting the rest of the file. (As
stated the claim extended the no-abort guarantee to empty rows; the
counterexample shows an empty row ends the load of all later rows.) -/
theorem import_waypoints_amended (rows : List (List (List Char)))
    (hne : ∀ r ∈ rows, r ≠ [])
    (hnum : ∀ r ∈ rows, startsWithX (r.headD []) = false → r.length = 7 →
      (parseRow7 r).isSome = true) :
    import_waypoints_from_csv rows = importSpec rows :=
  importRows_eq rows hne hnum []

/-- A valid 7-cell numeric row. -/
def goodRow7 : List (List Char) := [['1'], ['2'], ['3'], ['4'], ['5'], ['6'], ['7']]

/-- Counterexample to C7 as stated: an empty row — a row "of a different
length" in the claim's words — is fatal to the rest of the file: the valid
7-cell row after it is discarded (first conjunct), although that same row
parses to a waypoint on its own (second conjunct). -/
theorem import_empty_row_aborts :
    import_waypoints_from_csv [[], goodRow7] = [] ∧
    import_waypoints_from_csv [goodRow7] = [⟨1, 2, 3, 4, 5, 6, 7⟩] := by
  refine ⟨rfl, ?_⟩
  have hp : parseRow7 [['1'], ['2'], ['3'], ['4'], ['5'], ['6'], ['7']] =
      some ⟨1, 2, 3, 4, 5, 6, 7⟩ := by
    have h1 : pyFloat ['1'] = some 1 := by
      rw [pyFloat, show parseDecimal ['1'] = some (false, 1, 0, 0) from by decide]
      norm_num [decimalToRat]
    have h2 : pyFloat ['2'] = some 2 := by
      rw [pyFloat, show parseDecimal ['2'] = some (false, 2, 0, 0) from by decide]
      norm_num [decimalToRat]
    have h3 : pyFloat ['3'] = some 3 := by
      rw [pyFloat, show parseDecimal ['3'] = some (false, 3, 0, 0) from by decide]
      norm_num [decimalToRat]
    have h4 : pyFloat ['4'] = some 4 := by
      rw [pyFloat, show parseDecimal ['4'] = some (false, 4, 0, 0) from by decide]
      norm_num [decimalToRat]
    have h5 : pyFloat ['5'] = some 5 := by
      rw [pyFloat, show parseDecimal ['5'] = some (false, 5, 0, 0) from by decide]
      norm_num [decimalToRat]
    have h6 : pyFloat ['6'] = some 6 := by
      rw [pyFloat, show parseDecimal ['6'] = some (false, 6, 0, 0) from by decide]
      norm_num [decimalToRat]
    have h7 : pyFloat ['7'] = some 7 := by
      rw [pyFloat, show parseDecimal ['7'] = some (false, 7, 0, 0) from by decide]
      norm_num [decimalToRat]
    rw [parseRow7]
    simp [h1, h2, h3, h4, h5, h6, h7]
  rw [import_waypoints_from_csv]
  simp [importRows, goodRow7, startsWithX, hp]

/-- Witness for the amended C7, by the theorem at a concrete file: a
header row, a valid 7-cell row and a 2-cell row import as the claim
describes. -/
theorem import_waypoints_amended_witness :
    import_waypoints_from_csv [[['x'], ['c']], goodRow7, [['1'], ['2']]] =
      importSpec [[['x'], ['c']], goodRow7, [['1'], ['2']]] :=
  import_waypoints_amended _ (by decide) (by decide)

/-! ## Waypoint: interpolation

`Waypoint.interpolate_waypoints` (ProcessCommand.py lines 1043-1078): an
empty waypoint list or an elapsed time strictly past the last sample's `t`
returns `None`; otherwise each of the six coordinates is interpolated
(linear policy: `scipy.interp1d(kind='linear')`, piecewise linear through
the samples) at the elapsed time and the caller's initial offsets are
added. -/

/-- Piecewise-linear interpolation through `(time, value)` samples, the
first segment extended leftward (interp1d's extrapolation); only queried at
times not beyond the last sample. -/
def lininterp : List (ℚ × ℚ) → ℚ → ℚ
  | [], _ => 0
  | [p], _ => p.2
  | p :: q :: rest, s =>
    if s ≤ q.1 then p.2 + (q.2 - p.2) * (s - p.1) / (q.1 - p.1)
    else lininterp (q :: rest) s

/-- The interpolated result dictionary (ProcessCommand.py lines 1055-1078). -/
structure InterpolatedPoint where
  x : ℚ
  y : ℚ
  z : ℚ
  p1 : ℚ
  p2 : ℚ
  p3 : ℚ
deriving DecidableEq, Repr

/-- `Waypoint.interpolate_waypoints` with the linear policy: `none` for an
empty list or an elapsed time strictly past the last sample's `t` (the
follower treats this as completion); otherwise each coordinate interpolated
at `elapsed_time` plus its initial offset. -/
def interpolate_waypoints (waypoints : List WaypointRec)
    (elapsed_time x0 y0 z0 q1 q2 q3 : ℚ) : Option InterpolatedPoint :=
  match waypoints with
  | [] => none
  | w :: ws =>
    if ((w :: ws).getLastD w).t < elapsed_time then none
    else some
      { x := lininterp ((w :: ws).map (fun r => (r.t, r.x))) elapsed_time + x0
        y := lininterp ((w :: ws).map (fun r => (r.t, r.y))) elapsed_time + y0
        z := lininterp ((w :: ws).map (fun r => (r.t, r.z))) elapsed_time + z0
        p1 := lininterp ((w :: ws).map (fun r => (r.t, r.p1))) elapsed_time + q1
        p2 := lininterp ((w :: ws).map (fun r => (r.t, r.p2))) elapsed_time + q2
        p3 := lininterp ((w :: ws).map (fun r => (r.t, r.p3))) elapsed_time + q3 }

/-- The two-sample path of the claim: x goes 0 to 100 over t 0 to 10. -/
def demoPath : List WaypointRec := [⟨0, 0, 0, 0, 0, 0, 0⟩, ⟨100, 0, 0, 0, 0, 0, 10⟩]

/-- **C5**: on the path `t:0, x:0` to `t:10, x:100` with the linear policy,
evaluation at elapsed time 5 yields x = 50 exactly; and for every non-empty
waypoint sequence, evaluation at any elapsed time strictly greater than the
last sample's `t` yields `none` — the result the follower treats as normal
completion. -/
theorem waypoint_linear_midpoint_and_past_end :
    ((interpolate_waypoints demoPath 5 0 0 0 0 0 0).map InterpolatedPoint.x = some 50) ∧
    (∀ (w : WaypointRec) (ws : List WaypointRec) (elapsed x0 y0 z0 q1 q2 q3 : ℚ),
      ((w :: ws).getLastD w).t < elapsed →
      interpolate_waypoints (w :: ws) elapsed x0 y0 z0 q1 q2 q3 = none) := by
  constructor
  · rw [show interpolate_waypoints demoPath 5 0 0 0 0 0 0 =
      (if ((10 : ℚ) < 5) then none else some
        { x := lininterp [(0, 0), (10, 100)] 5 + 0
          y := lininterp [(0, 0), (10, 0)] 5 + 0
          z := lininterp [(0, 0), (10, 0)] 5 + 0
          p1 := lininterp [(0, 0), (10, 0)] 5 + 0
          p2 := lininterp [(0, 0), (10, 0)] 5 + 0
          p3 := lininterp [(0, 0), (10, 0)] 5 + 0 }) from rfl]
    rw [if_neg (by norm_num)]
    norm_num [lininterp]
  · intro w ws elapsed x0 y0 z0 q1 q2 q3 h
    simp only [interpolate_waypoints]
    rw [if_pos h]

/-- Witness for C5, by the theorem at the claim's path and elapsed time 15
(past the last sample's t = 10): no target is produced. -/
theorem waypoint_past_end_witness :
    interpolate_waypoints demoPath 15 0 0 0 0 0 0 = none :=
  waypoint_linear_midpoint_and_past_end.2 ⟨0, 0, 0, 0, 0, 0, 0⟩ [⟨100, 0, 0, 0, 0, 0, 10⟩]
    15 0 0 0 0 0 0 (by norm_num [List.getLastD])

end PyOneDark
